import Mathlib

/-!
Shallow embedding of the arviz plotting core under verification:
`plot_joint` (src/arviz/plots/jointplot.py), `plot_autocorr`
(src/arviz/plots/autocorrplot.py), `_plot_dist_bokeh` / `_histplot_bokeh_op`
(src/arviz/plots/backends/bokeh/bokeh_distplot.py) and `_plot_energy`
(src/arviz/plots/backends/matplotlib/mpl_energyplot.py).

Pure computations of the source are translated into Lean functions; Python
dictionaries become association lists; exceptions become an `Except` over an
explicit error type.  Helpers imported from modules that are not part of the
source tree (`convert_to_dataset`, `_var_names`, `xarray_var_iter`,
`stats.bfmi`, `get_bins`) are modelled from the spec and marked as such in
their doc comments, or taken as opaque function parameters.
-/

namespace Arviz

/-- Error conditions of the spec taxonomy (section 7).  `invalidArgument`
models the `ValueError`/`TypeError` raised for an unrecognized `kind`;
`cardinalityError` models the exception raised by `plot_joint` when the
number of resolved variables is not 2; both carry the formatted message. -/
inductive PlotError where
  | invalidArgument (msg : String)
  | cardinalityError (count : Nat) (msg : String)
  | notImplemented (msg : String)
deriving DecidableEq, Repr

/-- A variable of the posterior dataset: a name together with the extents of
its non-sample (shape) dimensions; a scalar variable has `shape = []`. -/
structure DataVar where
  name : String
  shape : List Nat
deriving DecidableEq, Repr

/-- The canonical labeled-array dataset (the result of
`convert_to_dataset(data, group="posterior")`): its variables in declaration
order, and the extent of the `draw` dimension. -/
structure Dataset where
  vars : List DataVar
  drawCount : Nat
deriving DecidableEq, Repr

/-- Modelled from the spec (section 4.2): `_var_names(var_names, data)`
returns the requested names, or all of the dataset's variable names when
`var_names` is unset. -/
def var_names_resolve (varNames : Option (List String)) (data : Dataset) :
    List String :=
  match varNames with
  | none => data.vars.map (·.name)
  | some ns => ns

/-- Modelled from the spec (section 4.2 VariableIterator): with
`combined=True`, `xarray_var_iter` emits one plot unit per (variable,
coordinate-combination) pair, the count per variable being the product of
its non-sample dimension extents; a scalar variable yields exactly one unit.
A unit is modelled as the variable name paired with the index of the
coordinate combination. -/
def xarray_var_iter (data : Dataset) (varNames : List String) :
    List (String × Nat) :=
  (data.vars.filter (fun v => varNames.contains v.name)).flatMap
    (fun v => (List.range v.shape.prod).map (fun i => (v.name, i)))

/-- The accepted `kind` values of `plot_joint` (jointplot.py line 118). -/
def joint_valid_kinds : List String := ["scatter", "kde", "hexbin"]

/-- The message of jointplot.py lines 120-122:
`"Plot type {} not recognized." "Plot type must be in {}"`. -/
def joint_invalid_kind_msg (kind : String) : String :=
  "Plot type " ++ kind ++ " not recognized." ++ "Plot type must be in " ++
    toString joint_valid_kinds

/-- The message of jointplot.py lines 134-136. -/
def joint_cardinality_msg (count : Nat) : String :=
  "Number of variables to be plotted must 2 (you supplied " ++
    toString count ++ ")"

/-- The validation stage of `plot_joint` (jointplot.py lines 118-136):
check `kind` against the accepted set, then convert the raw input to a
dataset, resolve the variable names, list the plot units, and require
exactly two of them.  `convert_to_dataset` is an external collaborator and
is taken as a function parameter `convert`; the raw input type is abstract.
On success the resolved plot units are returned. -/
def plot_joint {Raw : Type} (convert : Raw → Dataset) (kind : String)
    (data : Raw) (varNames : Option (List String)) :
    Except PlotError (List (String × Nat)) :=
  if joint_valid_kinds.contains kind then
    let ds := convert data
    let names := var_names_resolve varNames ds
    let plotters := xarray_var_iter ds names
    if plotters.length = 2 then
      .ok plotters
    else
      .error (.cardinalityError plotters.length
        (joint_cardinality_msg plotters.length))
  else
    .error (.invalidArgument (joint_invalid_kind_msg kind))

/-- Recognizer for the `invalidArgument` condition. -/
def PlotError.isInvalidArgument : PlotError → Bool
  | .invalidArgument _ => true
  | _ => false

/-- A concrete dataset of three scalar variables, used to instantiate the
cardinality claims. -/
def scalarDS : Dataset :=
  { vars := [⟨"a", []⟩, ⟨"b", []⟩, ⟨"c", []⟩], drawCount := 500 }

/-- The `max_lag` defaulting of `plot_autocorr` (autocorrplot.py lines
96-97): `if max_lag is None: max_lag = min(100, data["draw"].shape[0])`. -/
def plot_autocorr_max_lag (max_lag : Option Nat) (draw_count : Nat) : Nat :=
  match max_lag with
  | none => min 100 draw_count
  | some m => m

/-! ### Python dictionaries as association lists -/

/-- Lookup `d[k]`: the value of the first entry with key `k`. -/
def dictLookup {α : Type} (d : List (String × α)) (k : String) : Option α :=
  (d.find? (fun p => p.1 = k)).map (·.2)

/-- The removal part of `d.pop(k)`: drop the entry with key `k`. -/
def dictErase {α : Type} (d : List (String × α)) (k : String) :
    List (String × α) :=
  d.filter (fun p => ¬ p.1 = k)

/-- Assignment `d[k] = v`: replace the existing entry in place, else append. -/
def dictInsert {α : Type} : List (String × α) → String → α → List (String × α)
  | [], k, v => [(k, v)]
  | p :: rest, k, v =>
    if p.1 = k then (k, v) :: rest else p :: dictInsert rest k v

/-- The rename idiom `d[new] = d.pop(old)` used by the backend dispatch. -/
def dictRename {α : Type} (d : List (String × α)) (old new : String) :
    List (String × α) :=
  match dictLookup d old with
  | some v => dictInsert (dictErase d old) new v
  | none => d

/-! ### Backend dispatch of `plot_autocorr` and `plot_joint` -/

/-- The two rendering backends. -/
inductive Backend where
  | matplotlib
  | bokeh
deriving DecidableEq, Repr

/-- Values of the `autocorr_plot_args` bundle: the axes grid and plotter
list are structural objects, the sizes are numeric. -/
inductive AVal where
  | axesObj
  | plottersObj (l : List (String × Nat))
  | nat (n : Nat)
  | bool (b : Bool)
  | q (x : ℚ)
deriving DecidableEq, Repr

/-- The `autocorr_plot_args` bundle of autocorrplot.py lines 125-133. -/
def autocorr_plot_args (plotters : List (String × Nat)) (maxLag : Nat)
    (combined : Bool) (linewidth xt_labelsize titlesize : ℚ) :
    List (String × AVal) :=
  [("axes", .axesObj), ("plotters", .plottersObj plotters),
   ("max_lag", .nat maxLag), ("combined", .bool combined),
   ("linewidth", .q linewidth), ("xt_labelsize", .q xt_labelsize),
   ("titlesize", .q titlesize)]

/-- The backend dispatch of `plot_autocorr` (autocorrplot.py lines
135-146): for `backend == "bokeh"` pop `xt_labelsize` and `titlesize`,
rename `linewidth` to `line_width` and add `show`; every other selector
value takes the matplotlib branch with the bundle unchanged.  The function
is total: no selector value raises. -/
def plot_autocorr_dispatch (backend : Option String)
    (args : List (String × AVal)) (doShow : Bool) :
    Backend × List (String × AVal) :=
  if backend = some "bokeh" then
    let args := dictErase args "xt_labelsize"
    let args := dictErase args "titlesize"
    let args := dictRename args "linewidth" "line_width"
    let args := dictInsert args "show" (.bool doShow)
    (.bokeh, args)
  else
    (.matplotlib, args)

/-- Leaf values inside a `plot_kwargs` dictionary. -/
inductive LVal where
  | q (x : ℚ)
  | s (x : String)
  | b (x : Bool)
deriving DecidableEq, Repr

/-- Entries of `joint_kwargs` / `marginal_kwargs`: leaves or one nested
dictionary (such as `plot_kwargs`). -/
inductive KVal where
  | q (x : ℚ)
  | s (x : String)
  | b (x : Bool)
  | dict (d : List (String × LVal))
deriving DecidableEq, Repr

/-- A keyword dictionary as passed by the caller of `plot_joint`. -/
abbrev KW := List (String × KVal)

/-- Values of the `plot_joint_kwargs` bundle. -/
inductive JVal where
  | noneV
  | axesObj
  | pairQ (a b : ℚ)
  | plottersObj (l : List (String × Nat))
  | q (x : ℚ)
  | s (x : String)
  | b (x : Bool)
  | kw (d : KW)
deriving DecidableEq, Repr

/-- Lines 140-141 of jointplot.py: `joint_kwargs` defaults to `{}`; a
caller-supplied dictionary is used as is and never written to. -/
def plot_joint_joint_stage (joint_kwargs : Option KW) : KW :=
  joint_kwargs.getD []

/-- The nested `plot_kwargs` dictionary of a `marginal_kwargs` dictionary
(`[]` when absent; a non-dictionary value at that key is a type error in
the source, modelled as `[]`). -/
def marginal_plot_kwargs (mk : KW) : List (String × LVal) :=
  match dictLookup mk "plot_kwargs" with
  | some (.dict d) => d
  | _ => []

/-- Lines 143-146 of jointplot.py: `marginal_kwargs` defaults to `{}`, then
`marginal_kwargs.setdefault("plot_kwargs", {})` and
`marginal_kwargs["plot_kwargs"]["linewidth"] = linewidth` are applied to
the caller's dictionary in place; this is the dictionary's state after
those two lines. -/
def plot_joint_marginal_stage (marginal_kwargs : Option KW) (linewidth : ℚ) :
    KW :=
  let mk := marginal_kwargs.getD []
  dictInsert mk "plot_kwargs"
    (.dict (dictInsert (marginal_plot_kwargs mk) "linewidth" (.q linewidth)))

/-- The `plot_joint_kwargs` bundle of jointplot.py lines 148-160. -/
def plot_joint_build_args (ax : JVal) (figsize : ℚ × ℚ)
    (plotters : List (String × Nat)) (ax_labelsize xt_labelsize : ℚ)
    (kind : String) (contour fill_last : Bool) (joint_kwargs : KW)
    (gridsize : JVal) (marginal_kwargs : KW) : List (String × JVal) :=
  [("ax", ax), ("figsize", .pairQ figsize.1 figsize.2),
   ("plotters", .plottersObj plotters), ("ax_labelsize", .q ax_labelsize),
   ("xt_labelsize", .q xt_labelsize), ("kind", .s kind),
   ("contour", .b contour), ("fill_last", .b fill_last),
   ("joint_kwargs", .kw joint_kwargs), ("gridsize", gridsize),
   ("marginal_kwargs", .kw marginal_kwargs)]

/-- Lines 166-168 of jointplot.py: rename `linewidth` to `line_width` inside
`plot_joint_kwargs["marginal_kwargs"]["plot_kwargs"]`. -/
def joint_rename_marginal_linewidth (args : List (String × JVal)) :
    List (String × JVal) :=
  match dictLookup args "marginal_kwargs" with
  | some (.kw mk) =>
    match dictLookup mk "plot_kwargs" with
    | some (.dict pk) =>
      dictInsert args "marginal_kwargs"
        (.kw (dictInsert mk "plot_kwargs"
          (.dict (dictRename pk "linewidth" "line_width"))))
    | _ => args
  | _ => args

/-- The backend dispatch of `plot_joint` (jointplot.py lines 162-174): for
`backend == "bokeh"` pop `ax_labelsize`, rename the nested marginal
`linewidth` and add `show`; every other selector value takes the matplotlib
branch with the bundle unchanged.  The function is total: no selector value
raises. -/
def plot_joint_dispatch (backend : Option String)
    (args : List (String × JVal)) (doShow : Bool) :
    Backend × List (String × JVal) :=
  if backend = some "bokeh" then
    let args := dictErase args "ax_labelsize"
    let args := joint_rename_marginal_linewidth args
    let args := dictInsert args "show" (.b doShow)
    (.bokeh, args)
  else
    (.matplotlib, args)

/-- The nested `plot_kwargs` of the `marginal_kwargs` entry of a
`plot_joint_kwargs` bundle. -/
def bundle_marginal_plot_kwargs (args : List (String × JVal)) :
    List (String × LVal) :=
  match dictLookup args "marginal_kwargs" with
  | some (.kw mk) => marginal_plot_kwargs mk
  | _ => []

/-- The state of the caller's `marginal_kwargs` dictionary after
`plot_joint` returns: the in-place edits of lines 145-146, and — because the
bokeh branch edits the very same nested dictionary — the `line_width`
rename of lines 166-168 when the bokeh backend was selected. -/
def marginal_kwargs_after (backend : Option String)
    (marginal_kwargs : Option KW) (linewidth : ℚ) : KW :=
  let mk := plot_joint_marginal_stage marginal_kwargs linewidth
  if backend = some "bokeh" then
    dictInsert mk "plot_kwargs"
      (.dict (dictRename (marginal_plot_kwargs mk) "linewidth" "line_width"))
  else mk

/-! ### The bokeh distribution backend and the energy plot -/

/-- The `auto` resolution of `_plot_dist_bokeh` (bokeh_distplot.py lines
49-50): `kind = "hist" if values.dtype.kind == "i" else "kde"`.  The dtype
kind code of the values array is the only datum read. -/
def dist_resolve_kind (kind : String) (dtypeKind : String) : String :=
  if kind = "auto" then (if dtypeKind = "i" then "hist" else "kde") else kind

/-- The message of bokeh_distplot.py line 86. -/
def bokeh_dist_invalid_kind_msg (kind : String) : String :=
  "Invalid \"kind\":" ++ kind ++
    ". Select from \x7b\"auto\",\"kde\",\"hist\"\x7d"

/-- The message of mpl_energyplot.py line 55. -/
def energy_invalid_kind_msg (kind : String) : String :=
  "Plot type " ++ kind ++ " not recognized."

/-- The drawing action `_plot_dist_bokeh` dispatches to. -/
inductive DistAction where
  | histAction
  | kdeAction
deriving DecidableEq, Repr

/-- The kind dispatch of `_plot_dist_bokeh` (bokeh_distplot.py lines
49-86): resolve `auto` from the dtype kind, then route to the histogram or
KDE branch, or fail with the `TypeError` of line 86. -/
def plot_dist_bokeh (kind : String) (dtypeKind : String) :
    Except PlotError DistAction :=
  let kind := dist_resolve_kind kind dtypeKind
  if kind = "hist" then .ok .histAction
  else if kind = "kde" then .ok .kdeAction
  else .error (.invalidArgument (bokeh_dist_invalid_kind_msg kind))

/-- The kind dispatch of `_plot_energy` (mpl_energyplot.py lines 25-55). -/
def energy_kind_dispatch (kind : String) : Except PlotError DistAction :=
  if kind = "kde" then .ok .kdeAction
  else if kind = "hist" ∨ kind = "histogram" then .ok .histAction
  else .error (.invalidArgument (energy_invalid_kind_msg kind))

/-- Whether `token` occurs verbatim inside `msg`. -/
def mentions (msg token : String) : Prop :=
  List.IsInfix token.toList msg.toList

instance (msg token : String) : Decidable (mentions msg token) :=
  List.decidableInfix _ _

/-- The BFMI annotation stage of `_plot_energy` (mpl_energyplot.py lines
57-59): `for idx, val in enumerate(e_bfmi(energy)): ax.plot([], label=...)`.
The diagnostic `stats.bfmi` is imported from outside this core and is taken
as an opaque function parameter `e_bfmi`; `energy` is the per-chain energy
matrix.  The annotations are modelled as the (chain index, value) pairs
shown in the legend labels. -/
def bfmi_annotations (e_bfmi : List (List ℚ) → List ℚ) (bfmiFlag : Bool)
    (energy : List (List ℚ)) : List (Nat × ℚ) :=
  if bfmiFlag then (e_bfmi energy).enum else []

/-! ### The cumulative histogram of `_histplot_bokeh_op` -/

/-- Bin counts of `np.histogram(values, bins=edges)`: bins are half-open
`[e i, e (i+1))`, the final bin is closed. -/
def histCounts (values : List ℚ) : List ℚ → List Nat
  | lo :: hi :: rest =>
    if rest = [] then
      [(values.filter (fun v => decide (lo ≤ v) && decide (v ≤ hi))).length]
    else
      (values.filter (fun v => decide (lo ≤ v) && decide (v < hi))).length ::
        histCounts values (hi :: rest)
  | _ => []

/-- The widths `np.diff(edges)` of the bins. -/
def binWidths : List ℚ → List ℚ
  | lo :: hi :: rest => (hi - lo) :: binWidths (hi :: rest)
  | _ => []

/-- Densities of `np.histogram(values, density=True, bins=edges)`: counts divided by
bin width and by the total count (`n / db / n.sum()`).  Note that
bokeh_distplot.py line 110 pops `density` from `hist_kwargs` before line
116 reads it, so the density branch is always taken. -/
def histDensity (values : List ℚ) (edges : List ℚ) : List ℚ :=
  List.zipWith
    (fun (c : Nat) (w : ℚ) =>
      (c : ℚ) / (w * ((histCounts values edges).sum : ℚ)))
    (histCounts values edges) (binWidths edges)

/-- Model of `np.cumsum` with an explicit running total. -/
def cumsumFrom (acc : ℚ) : List ℚ → List ℚ
  | [] => []
  | x :: xs => (acc + x) :: cumsumFrom (acc + x) xs

/-- Model of `np.cumsum`. -/
def cumsum (l : List ℚ) : List ℚ := cumsumFrom 0 l

/-- The histogram stage of `_histplot_bokeh_op` (bokeh_distplot.py lines
117-120): the density histogram over the bin edges; when `hist_kwargs`
requests `cumulative`, the running sum divided by its final entry. -/
def histplot_bokeh_op (values edges : List ℚ) (cumulative : Bool) :
    List ℚ :=
  let hist := histDensity values edges
  if cumulative then
    let c := cumsum hist
    c.map (fun x => x / (c.getLast?.getD 0))
  else hist

/-! ### Association-list lemmas -/

theorem dictLookup_cons {α : Type} (p : String × α) (d : List (String × α))
    (k : String) :
    dictLookup (p :: d) k = if p.1 = k then some p.2 else dictLookup d k := by
  by_cases h : p.1 = k <;> simp [dictLookup, List.find?_cons, h]

theorem dictLookup_insert_self {α : Type} (d : List (String × α))
    (k : String) (v : α) : dictLookup (dictInsert d k v) k = some v := by
  induction d with
  | nil => simp [dictInsert, dictLookup_cons]
  | cons p rest ih =>
    by_cases h : p.1 = k <;> simp [dictInsert, h, dictLookup_cons, ih]

theorem dictLookup_insert_ne {α : Type} (d : List (String × α))
    (k k' : String) (v : α) (h : k' ≠ k) :
    dictLookup (dictInsert d k v) k' = dictLookup d k' := by
  induction d with
  | nil => simp [dictInsert, dictLookup_cons, dictLookup, Ne.symm h]
  | cons p rest ih =>
    by_cases hp : p.1 = k
    · simp [dictInsert, hp, dictLookup_cons, Ne.symm h]
    · simp [dictInsert, hp, dictLookup_cons, ih]

theorem dictLookup_erase_self {α : Type} (d : List (String × α))
    (k : String) : dictLookup (dictErase d k) k = none := by
  induction d with
  | nil => simp [dictErase, dictLookup]
  | cons p rest ih =>
    by_cases h : p.1 = k <;>
      simp [dictErase, h, List.filter_cons, dictLookup_cons] <;>
      simpa [dictErase] using ih

theorem dictLookup_erase_ne {α : Type} (d : List (String × α))
    (k k' : String) (h : k' ≠ k) :
    dictLookup (dictErase d k) k' = dictLookup d k' := by
  induction d with
  | nil => simp [dictErase]
  | cons p rest ih =>
    by_cases hp : p.1 = k
    · subst hp
      simp [dictErase, List.filter_cons, dictLookup_cons, Ne.symm h]
      simpa [dictErase] using ih
    · simp [dictErase, List.filter_cons, hp, dictLookup_cons]
      by_cases hk' : p.1 = k'
      · simp [hk']
      · simp [hk']
        simpa [dictErase] using ih

theorem dictLookup_rename_new {α : Type} (d : List (String × α))
    (old new : String) (v : α) (hv : dictLookup d old = some v) :
    dictLookup (dictRename d old new) new = some v := by
  simp [dictRename, hv, dictLookup_insert_self]

theorem dictLookup_rename_old {α : Type} (d : List (String × α))
    (old new : String) (hne : old ≠ new) :
    dictLookup (dictRename d old new) old = none := by
  cases hv : dictLookup d old with
  | none => simp [dictRename, hv]
  | some v =>
    simp [dictRename, hv, dictLookup_insert_ne _ _ _ _ hne,
      dictLookup_erase_self]

theorem dictLookup_rename_other {α : Type} (d : List (String × α))
    (old new k : String) (hko : k ≠ old) (hkn : k ≠ new) :
    dictLookup (dictRename d old new) k = dictLookup d k := by
  cases hv : dictLookup d old with
  | none => simp [dictRename, hv]
  | some v =>
    simp [dictRename, hv, dictLookup_insert_ne _ _ _ _ hkn,
      dictLookup_erase_ne _ _ _ hko]

/-- Occurrence in the right part: `token` occurs in `a ++ k ++ b` whenever it occurs in `b`. -/
theorem mentions_append_right (a k b token : String)
    (h : mentions b token) : mentions (a ++ k ++ b) token := by
  unfold mentions at *
  have hsuf : b.toList <:+ (a ++ k ++ b).toList := by
    show b.data <:+ (a ++ k ++ b).data
    simp only [String.data_append]
    exact List.suffix_append _ _
  exact h.trans ( List.IsSuffix.isInfix hsuf)

/-- C2: an unrecognized `kind` makes `plot_joint` fail with the
InvalidArgument condition before the data is converted or read — for an
invalid kind the result is the same invalid-kind error whatever the
converter and the raw data are — and the InvalidArgument failure occurs for
exactly the kinds outside {"scatter", "kde", "hexbin"}. -/
theorem joint_invalid_kind_fails_fast (kind : String) :
    (kind ∉ joint_valid_kinds →
      ∀ (R S : Type) (c1 : R → Dataset) (c2 : S → Dataset) (r : R) (s : S)
        (vn1 vn2 : Option (List String)),
        plot_joint c1 kind r vn1 =
          .error (.invalidArgument (joint_invalid_kind_msg kind)) ∧
        plot_joint c1 kind r vn1 = plot_joint c2 kind s vn2) ∧
    (kind ∈ joint_valid_kinds →
      ∀ (R : Type) (c : R → Dataset) (r : R) (vn : Option (List String))
        (e : PlotError),
        plot_joint c kind r vn = .error e → e.isInvalidArgument = false) := by
  constructor
  · intro h R S c1 c2 r s vn1 vn2
    have hc : joint_valid_kinds.contains kind = false := by
      simpa using h
    constructor <;> simp [plot_joint, h]
  · intro h R c r vn e
    have hc : joint_valid_kinds.contains kind = true := by
      simpa using h
    simp only [plot_joint, hc, if_true]
    split
    · intro h'
      exact absurd h' (by simp)
    · intro h'
      injection h' with h''
      subst h''
      rfl

/-- Witness for C2: `kind="bogus"` fails with the invalid-kind error. -/
theorem joint_invalid_kind_fails_fast_witness :
    plot_joint (fun _ : Unit => scalarDS) "bogus" () none =
      .error (.invalidArgument (joint_invalid_kind_msg "bogus")) :=
  ((joint_invalid_kind_fails_fast "bogus").1 (by decide) Unit Unit
    (fun _ => scalarDS) (fun _ => scalarDS) () () none none).1

/-- C9: every backend selector other than the exact string "bokeh" —
unset included, unrecognized strings such as "bogus" included — routes
`plot_autocorr` and `plot_joint` to the matplotlib adapter; the dispatch is
a total function of the selector, so no selector value raises. -/
theorem backend_default_matplotlib :
    (∀ (backend : Option String), backend ≠ some "bokeh" →
      ∀ (aargs : List (String × AVal)) (jargs : List (String × JVal))
        (doShow : Bool),
        (plot_autocorr_dispatch backend aargs doShow).1 = .matplotlib ∧
        (plot_joint_dispatch backend jargs doShow).1 = .matplotlib) ∧
    (∀ (aargs : List (String × AVal)) (jargs : List (String × JVal))
        (doShow : Bool),
        (plot_autocorr_dispatch none aargs doShow).1 = .matplotlib ∧
        (plot_autocorr_dispatch (some "bogus") aargs doShow).1 =
          .matplotlib ∧
        (plot_joint_dispatch none jargs doShow).1 = .matplotlib ∧
        (plot_joint_dispatch (some "bogus") jargs doShow).1 =
          .matplotlib) := by
  constructor
  · intro backend h aargs jargs doShow
    constructor <;> simp [plot_autocorr_dispatch, plot_joint_dispatch, h]
  · intro aargs jargs doShow
    refine ⟨?_, ?_, ?_, ?_⟩ <;>
      simp [plot_autocorr_dispatch, plot_joint_dispatch]

/-- Witness for C9: the unset and the unrecognized selector both take the
matplotlib branch, for both plot functions. -/
theorem backend_default_matplotlib_witness :
    (plot_autocorr_dispatch none [] true).1 = .matplotlib ∧
    (plot_joint_dispatch (some "bogus") [] true).1 = .matplotlib :=
  ⟨(backend_default_matplotlib.1 none (by simp) [] [] true).1,
   (backend_default_matplotlib.1 (some "bogus") (by simp) [] [] true).2⟩

/-- C10: with `kind="auto"` the bokeh distribution backend resolves the
kind to "hist" exactly when the values array's dtype kind code is "i", and
to "kde" otherwise, before dispatching to a drawing branch. -/
theorem dist_auto_resolution (dtypeKind : String) :
    (plot_dist_bokeh "auto" dtypeKind = .ok .histAction ↔ dtypeKind = "i") ∧
    (dtypeKind ≠ "i" → plot_dist_bokeh "auto" dtypeKind = .ok .kdeAction) ∧
    dist_resolve_kind "auto" dtypeKind =
      (if dtypeKind = "i" then "hist" else "kde") := by
  refine ⟨?_, ?_, ?_⟩
  · by_cases h : dtypeKind = "i" <;>
      simp [plot_dist_bokeh, dist_resolve_kind, h]
  · intro h
    simp [plot_dist_bokeh, dist_resolve_kind, h]
  · simp [dist_resolve_kind]

/-- Witness for C10: an integer dtype kind resolves to the histogram
branch, a float dtype kind to the KDE branch. -/
theorem dist_auto_resolution_witness :
    plot_dist_bokeh "auto" "i" = .ok .histAction ∧
    plot_dist_bokeh "auto" "f" = .ok .kdeAction :=
  ⟨(dist_auto_resolution "i").1.mpr rfl,
   (dist_auto_resolution "f").2.1 (by decide)⟩

/-- C6 counterexample: for the unrecognized kind "bogus" the energy plot's
InvalidArgument message is `"Plot type bogus not recognized."`, which does
not mention any member of its accepted set {"kde", "hist", "histogram"}:
it does not enumerate the accepted set. -/
theorem energy_invalid_kind_no_enumeration :
    energy_kind_dispatch "bogus" =
      .error (.invalidArgument (energy_invalid_kind_msg "bogus")) ∧
    ¬ mentions (energy_invalid_kind_msg "bogus") "kde" ∧
    ¬ mentions (energy_invalid_kind_msg "bogus") "hist" ∧
    ¬ mentions (energy_invalid_kind_msg "bogus") "histogram" := by
  refine ⟨by rfl, by decide, by decide, by decide⟩

/-- C6 amended: the bokeh distribution backend's invalid-kind message
enumerates its accepted set {"auto", "kde", "hist"}, and the failure occurs
for exactly the kinds outside that set; the energy plot fails for kinds
outside its accepted set with the message `"Plot type {kind} not
recognized."`, which reports the rejected kind but does not enumerate the
accepted set. -/
theorem invalid_kind_msg_enumeration (kind : String) :
    (mentions (bokeh_dist_invalid_kind_msg kind) "auto" ∧
     mentions (bokeh_dist_invalid_kind_msg kind) "kde" ∧
     mentions (bokeh_dist_invalid_kind_msg kind) "hist") ∧
    (∀ dtypeKind : String, kind ∉ (["auto", "kde", "hist"] : List String) →
      plot_dist_bokeh kind dtypeKind =
        .error (.invalidArgument (bokeh_dist_invalid_kind_msg kind))) ∧
    (kind ∉ (["kde", "hist", "histogram"] : List String) →
      energy_kind_dispatch kind =
        .error (.invalidArgument (energy_invalid_kind_msg kind))) ∧
    energy_invalid_kind_msg kind =
      "Plot type " ++ kind ++ " not recognized." := by
  refine ⟨⟨?_, ?_, ?_⟩, ?_, ?_, rfl⟩
  · exact mentions_append_right _ _ _ _ (by decide)
  · exact mentions_append_right _ _ _ _ (by decide)
  · exact mentions_append_right _ _ _ _ (by decide)
  · intro dtypeKind h
    simp only [List.mem_cons, List.mem_singleton, not_or] at h
    obtain ⟨h1, h2, h3⟩ := h
    simp [plot_dist_bokeh, dist_resolve_kind, h1, h2, h3]
  · intro h
    simp only [List.mem_cons, List.mem_singleton, not_or] at h
    obtain ⟨h1, h2, h3⟩ := h
    simp [energy_kind_dispatch, h1, h2, h3]

/-- Witness for C6 (amended): the concrete kind "bogus" produces both
errors, and the bokeh message enumerates the accepted set. -/
theorem invalid_kind_msg_enumeration_witness :
    mentions (bokeh_dist_invalid_kind_msg "bogus") "auto" ∧
    plot_dist_bokeh "bogus" "f" =
      .error (.invalidArgument (bokeh_dist_invalid_kind_msg "bogus")) ∧
    energy_kind_dispatch "bogus" =
      .error (.invalidArgument (energy_invalid_kind_msg "bogus")) :=
  ⟨(invalid_kind_msg_enumeration "bogus").1.1,
   (invalid_kind_msg_enumeration "bogus").2.1 "f" (by decide),
   (invalid_kind_msg_enumeration "bogus").2.2.1 (by decide)⟩

/-- C4: the energy-plot core is parametric in the BFMI diagnostic: with the
`bfmi` flag set, the annotated per-chain values are exactly the output of
the externally supplied diagnostic function — any two external functions
agreeing on the energy input yield identical annotations, so the core
computes nothing of the diagnostic itself — one annotation per chain when
the external sequence has one value per chain, and none when the flag is
unset. -/
theorem energy_bfmi_consumed_not_computed
    (f g : List (List ℚ) → List ℚ) (energy : List (List ℚ))
    (hfg : f energy = g energy) :
    bfmi_annotations f true energy = (f energy).enum ∧
    bfmi_annotations f true energy = bfmi_annotations g true energy ∧
    (bfmi_annotations f true energy).map Prod.snd = f energy ∧
    ((f energy).length = energy.length →
      (bfmi_annotations f true energy).length = energy.length) ∧
    bfmi_annotations f false energy = [] := by
  refine ⟨rfl, ?_, ?_, ?_, rfl⟩
  · simp [bfmi_annotations, hfg]
  · simp [bfmi_annotations, List.enum_map_snd]
  · intro h
    simp [bfmi_annotations, List.enum_length, h]

/-- Witness for C4 at a concrete external diagnostic and energy matrix. -/
theorem energy_bfmi_consumed_not_computed_witness :
    bfmi_annotations (fun m => m.map (fun c => c.length)) true
        [[1, 2], [3, 4]] = [(0, 2), (1, 2)] ∧
    bfmi_annotations (fun m => m.map (fun c => c.length)) false
        [[1, 2], [3, 4]] = [] := by
  have h := energy_bfmi_consumed_not_computed
    (fun m => m.map (fun c => c.length))
    (fun m => m.map (fun c => c.length)) [[1, 2], [3, 4]] rfl
  exact ⟨h.1.trans (by decide), h.2.2.2.2⟩

/-- C7 counterexample: on a concrete `plot_joint` call dispatched to the
bokeh backend, the transformed argument bundle still contains the
label-size key `xt_labelsize` (only `ax_labelsize` is popped), so the
dispatcher does not omit all the label-size keys from the bundle. -/
theorem joint_bokeh_keeps_xt_labelsize :
    dictLookup
      (plot_joint_dispatch (some "bokeh")
        (plot_joint_build_args .noneV (6, 6) [("mu", 0), ("tau", 0)] 11 10
          "scatter" true true [] (.s "auto")
          (plot_joint_marginal_stage none 2)) true).2
      "xt_labelsize" = some (.q 10) := by
  rfl

/-- The explicit shape of the `plot_autocorr` bundle after the bokeh
transformation. -/
theorem autocorr_bokeh_bundle_eq (plotters : List (String × Nat))
    (maxLag : Nat) (combined : Bool) (lw xt ts : ℚ) (doShow : Bool) :
    (plot_autocorr_dispatch (some "bokeh")
      (autocorr_plot_args plotters maxLag combined lw xt ts) doShow).2 =
    [("axes", .axesObj), ("plotters", .plottersObj plotters),
     ("max_lag", .nat maxLag), ("combined", .bool combined),
     ("line_width", .q lw), ("show", .bool doShow)] := by
  rfl

/-- The explicit shape of the `plot_joint` bundle after the bokeh
transformation: `ax_labelsize` is gone, `xt_labelsize` remains, and the
marginal `plot_kwargs` has its `linewidth` renamed. -/
theorem joint_bokeh_bundle_eq (ax : JVal) (figsize : ℚ × ℚ)
    (plotters2 : List (String × Nat)) (al xl : ℚ) (kind : String)
    (contour fill_last : Bool) (jk : KW) (gridsize : JVal)
    (mk0 : Option KW) (lw : ℚ) (doShow : Bool) :
    (plot_joint_dispatch (some "bokeh")
      (plot_joint_build_args ax figsize plotters2 al xl kind contour
        fill_last jk gridsize (plot_joint_marginal_stage mk0 lw))
      doShow).2 =
    [("ax", ax), ("figsize", .pairQ figsize.1 figsize.2),
     ("plotters", .plottersObj plotters2), ("xt_labelsize", .q xl),
     ("kind", .s kind), ("contour", .b contour),
     ("fill_last", .b fill_last), ("joint_kwargs", .kw jk),
     ("gridsize", gridsize),
     ("marginal_kwargs", .kw (dictInsert (plot_joint_marginal_stage mk0 lw)
        "plot_kwargs" (.dict (dictRename
          (dictInsert (marginal_plot_kwargs (mk0.getD [])) "linewidth"
            (.q lw)) "linewidth" "line_width")))),
     ("show", .b doShow)] := by
  have hstage : dictLookup (plot_joint_marginal_stage mk0 lw)
      "plot_kwargs" =
      some (.dict (dictInsert (marginal_plot_kwargs (mk0.getD []))
        "linewidth" (.q lw))) := by
    simp [plot_joint_marginal_stage, dictLookup_insert_self]
  simp [plot_joint_dispatch, plot_joint_build_args,
    joint_rename_marginal_linewidth, dictErase, List.filter_cons,
    dictLookup_cons, dictInsert, hstage]

/-- C7 amended: for the bokeh backend, `plot_autocorr` renames its
top-level `linewidth` key to `line_width` and omits `xt_labelsize` and
`titlesize`; `plot_joint` omits `ax_labelsize` and renames the `linewidth`
key nested in the marginal plot kwargs to `line_width`, but keeps
`xt_labelsize` in its bundle; for the matplotlib backend both bundles pass
through unchanged. -/
theorem backend_key_translation
    (plotters : List (String × Nat)) (maxLag : Nat) (combined : Bool)
    (lw xt ts : ℚ) (doShow : Bool) (ax : JVal) (figsize : ℚ × ℚ)
    (plotters2 : List (String × Nat)) (al xl : ℚ) (kind : String)
    (contour fill_last : Bool) (jk : KW) (gridsize : JVal)
    (mk0 : Option KW) :
    (dictLookup (plot_autocorr_dispatch (some "bokeh")
        (autocorr_plot_args plotters maxLag combined lw xt ts) doShow).2
        "line_width" = some (.q lw)) ∧
    (dictLookup (plot_autocorr_dispatch (some "bokeh")
        (autocorr_plot_args plotters maxLag combined lw xt ts) doShow).2
        "linewidth" = none) ∧
    (dictLookup (plot_autocorr_dispatch (some "bokeh")
        (autocorr_plot_args plotters maxLag combined lw xt ts) doShow).2
        "xt_labelsize" = none) ∧
    (dictLookup (plot_autocorr_dispatch (some "bokeh")
        (autocorr_plot_args plotters maxLag combined lw xt ts) doShow).2
        "titlesize" = none) ∧
    ((plot_autocorr_dispatch none
        (autocorr_plot_args plotters maxLag combined lw xt ts) doShow).2 =
      autocorr_plot_args plotters maxLag combined lw xt ts) ∧
    (dictLookup (plot_joint_dispatch (some "bokeh")
        (plot_joint_build_args ax figsize plotters2 al xl kind contour
          fill_last jk gridsize (plot_joint_marginal_stage mk0 lw))
        doShow).2 "ax_labelsize" = none) ∧
    (dictLookup (plot_joint_dispatch (some "bokeh")
        (plot_joint_build_args ax figsize plotters2 al xl kind contour
          fill_last jk gridsize (plot_joint_marginal_stage mk0 lw))
        doShow).2 "xt_labelsize" = some (.q xl)) ∧
    (dictLookup (bundle_marginal_plot_kwargs
        (plot_joint_dispatch (some "bokeh")
          (plot_joint_build_args ax figsize plotters2 al xl kind contour
            fill_last jk gridsize (plot_joint_marginal_stage mk0 lw))
          doShow).2) "line_width" = some (.q lw)) ∧
    (dictLookup (bundle_marginal_plot_kwargs
        (plot_joint_dispatch (some "bokeh")
          (plot_joint_build_args ax figsize plotters2 al xl kind contour
            fill_last jk gridsize (plot_joint_marginal_stage mk0 lw))
          doShow).2) "linewidth" = none) ∧
    ((plot_joint_dispatch none
        (plot_joint_build_args ax figsize plotters2 al xl kind contour
          fill_last jk gridsize (plot_joint_marginal_stage mk0 lw))
        doShow).2 =
      plot_joint_build_args ax figsize plotters2 al xl kind contour
        fill_last jk gridsize (plot_joint_marginal_stage mk0 lw)) := by
  rw [autocorr_bokeh_bundle_eq, joint_bokeh_bundle_eq]
  refine ⟨by simp [dictLookup_cons], by simp [dictLookup_cons, dictLookup],
    by simp [dictLookup_cons, dictLookup],
    by simp [dictLookup_cons, dictLookup],
    by simp [plot_autocorr_dispatch], by simp [dictLookup_cons, dictLookup],
    by simp [dictLookup_cons], ?_, ?_, by simp [plot_joint_dispatch]⟩
  · simp [bundle_marginal_plot_kwargs, marginal_plot_kwargs,
      dictLookup_cons, dictLookup_insert_self, dictLookup_rename_new]
  · simp [bundle_marginal_plot_kwargs, marginal_plot_kwargs,
      dictLookup_cons, dictLookup_insert_self, dictLookup_rename_old]

/-- C8 counterexample: a caller-supplied empty `marginal_kwargs`
dictionary is no longer empty after `plot_joint` returns — the call
observably mutates a caller-owned keyword dictionary. -/
theorem marginal_kwargs_mutated :
    marginal_kwargs_after none (some []) 1 =
      [("plot_kwargs", .dict [("linewidth", .q 1)])] ∧
    marginal_kwargs_after none (some []) 1 ≠ [] := by
  refine ⟨rfl, by decide⟩

/-- C8 amended: `joint_kwargs` is used unchanged, but a caller-supplied
`marginal_kwargs` dictionary is mutated in place: after the call its
`plot_kwargs` entry holds the computed line width under the key
`linewidth` (matplotlib) or `line_width` (bokeh, where `linewidth` is also
removed); entries under all other keys, at both nesting levels, are
preserved. -/
theorem joint_kwargs_mutation_characterized (jk mk0 : KW) (lw : ℚ) :
    plot_joint_joint_stage (some jk) = jk ∧
    dictLookup (marginal_plot_kwargs
        (marginal_kwargs_after none (some mk0) lw)) "linewidth" =
      some (.q lw) ∧
    dictLookup (marginal_plot_kwargs
        (marginal_kwargs_after (some "bokeh") (some mk0) lw)) "line_width" =
      some (.q lw) ∧
    dictLookup (marginal_plot_kwargs
        (marginal_kwargs_after (some "bokeh") (some mk0) lw)) "linewidth" =
      none ∧
    (∀ k, k ≠ "plot_kwargs" →
      dictLookup (marginal_kwargs_after none (some mk0) lw) k =
        dictLookup mk0 k ∧
      dictLookup (marginal_kwargs_after (some "bokeh") (some mk0) lw) k =
        dictLookup mk0 k) ∧
    (∀ k, k ≠ "linewidth" → k ≠ "line_width" →
      dictLookup (marginal_plot_kwargs
          (marginal_kwargs_after none (some mk0) lw)) k =
        dictLookup (marginal_plot_kwargs mk0) k ∧
      dictLookup (marginal_plot_kwargs
          (marginal_kwargs_after (some "bokeh") (some mk0) lw)) k =
        dictLookup (marginal_plot_kwargs mk0) k) := by
  refine ⟨rfl, ?_, ?_, ?_, ?_, ?_⟩
  · simp [marginal_kwargs_after, plot_joint_marginal_stage,
      marginal_plot_kwargs, dictLookup_insert_self]
  · simp [marginal_kwargs_after, plot_joint_marginal_stage,
      marginal_plot_kwargs, dictLookup_insert_self,
      dictLookup_rename_new]
  · simp [marginal_kwargs_after, plot_joint_marginal_stage,
      marginal_plot_kwargs, dictLookup_insert_self,
      dictLookup_rename_old]
  · intro k hk
    constructor <;>
      simp [marginal_kwargs_after, plot_joint_marginal_stage,
        dictLookup_insert_ne _ _ _ _ hk, dictLookup_insert_self]
  · intro k hk1 hk2
    constructor
    · simp [marginal_kwargs_after, plot_joint_marginal_stage,
        marginal_plot_kwargs, dictLookup_insert_self,
        dictLookup_insert_ne _ _ _ _ hk1]
    · simp [marginal_kwargs_after, plot_joint_marginal_stage,
        marginal_plot_kwargs, dictLookup_insert_self,
        dictLookup_rename_other _ _ _ _ hk1 hk2,
        dictLookup_insert_ne _ _ _ _ hk1]

/-- Witness for C8 (amended), at a concrete caller dictionary that already
holds unrelated entries at both levels: they survive, the line width is
installed. -/
theorem joint_kwargs_mutation_characterized_witness :
    plot_joint_joint_stage (some [("alpha", .q 0)]) = [("alpha", .q 0)] ∧
    dictLookup (marginal_kwargs_after none
        (some [("color", .s "k"),
               ("plot_kwargs", .dict [("ls", .s "--")])]) 3) "color" =
      some (.s "k") ∧
    dictLookup (marginal_plot_kwargs (marginal_kwargs_after none
        (some [("color", .s "k"),
               ("plot_kwargs", .dict [("ls", .s "--")])]) 3)) "ls" =
      some (.s "--") ∧
    dictLookup (marginal_plot_kwargs (marginal_kwargs_after (some "bokeh")
        (some [("color", .s "k"),
               ("plot_kwargs", .dict [("ls", .s "--")])]) 3)) "ls" =
      some (.s "--") := by
  have h := joint_kwargs_mutation_characterized [("alpha", .q 0)]
    [("color", .s "k"), ("plot_kwargs", .dict [("ls", .s "--")])] 3
  exact ⟨h.1, (h.2.2.2.2.1 "color" (by decide)).1,
    (h.2.2.2.2.2 "ls" (by decide) (by decide)).1,
    (h.2.2.2.2.2 "ls" (by decide) (by decide)).2⟩

/-! ### Histogram lemmas -/

theorem histDensity_ne_nil (values : List ℚ) (lo hi : ℚ) (rest : List ℚ) :
    histDensity values (lo :: hi :: rest) ≠ [] := by
  unfold histDensity
  cases rest with
  | nil => simp [histCounts, binWidths]
  | cons e2 r2 => simp [histCounts, binWidths]

theorem histCounts_length_eq_binWidths (values : List ℚ) :
    ∀ edges : List ℚ,
      (histCounts values edges).length = (binWidths edges).length := by
  intro edges
  induction edges with
  | nil => rfl
  | cons lo tail ih =>
    cases tail with
    | nil => rfl
    | cons hi rest =>
      cases rest with
      | nil => rfl
      | cons e2 rest2 =>
        by_cases h : rest2 = []
        · subst h; rfl
        · simp [histCounts, binWidths, h] at ih ⊢
          omega

theorem binWidths_pos :
    ∀ edges : List ℚ, edges.Chain' (· < ·) →
      ∀ w ∈ binWidths edges, 0 < w := by
  intro edges
  induction edges with
  | nil => intro _ w hw; simp [binWidths] at hw
  | cons lo tail ih =>
    intro hc w hw
    cases tail with
    | nil => simp [binWidths] at hw
    | cons hi rest =>
      simp only [binWidths, List.mem_cons] at hw
      rcases hw with h | h
      · subst h
        have hlt : lo < hi := (List.chain'_cons.mp hc).1
        linarith
      · exact ih (List.chain'_cons.mp hc).2 w h

theorem histCounts_sum_pos (values : List ℚ) (v : ℚ) (hv : v ∈ values) :
    ∀ edges : List ℚ, 2 ≤ edges.length →
      edges.head?.getD 0 ≤ v → v ≤ edges.getLast?.getD 0 →
      1 ≤ (histCounts values edges).sum := by
  intro edges
  induction edges with
  | nil => intro h; simp at h
  | cons lo tail ih =>
    intro hlen hlo hlast
    cases tail with
    | nil => simp at hlen
    | cons hi rest =>
      simp only [List.head?_cons, Option.getD_some] at hlo
      cases rest with
      | nil =>
        have hhi : v ≤ hi := by
          simpa [List.getLast?_cons_cons] using hlast
        have hmem : v ∈ values.filter
            (fun v => decide (lo ≤ v) && decide (v ≤ hi)) := by
          simp [List.mem_filter, hv, hlo, hhi]
        have hpos : 0 < (values.filter
            (fun v => decide (lo ≤ v) && decide (v ≤ hi))).length :=
          List.length_pos.mpr (List.ne_nil_of_mem hmem)
        simp [histCounts]
        omega
      | cons e2 rest2 =>
        by_cases hvh : v < hi
        · have hmem : v ∈ values.filter
              (fun v => decide (lo ≤ v) && decide (v < hi)) := by
            simp [List.mem_filter, hv, hlo, hvh]
          have hpos : 0 < (values.filter
              (fun v => decide (lo ≤ v) && decide (v < hi))).length :=
            List.length_pos.mpr (List.ne_nil_of_mem hmem)
          simp [histCounts]
          omega
        · have hhi : hi ≤ v := le_of_not_lt hvh
          have hrec := ih (by simp) (by simpa using hhi)
            (by simpa [List.getLast?_cons_cons] using hlast)
          simp [histCounts] at hrec ⊢
          omega

theorem zipWith_density_nonneg (t : ℚ) (ht : 0 ≤ t) :
    ∀ (cs : List Nat) (ws : List ℚ), (∀ w ∈ ws, 0 < w) →
      ∀ x ∈ List.zipWith (fun (c : Nat) (w : ℚ) => (c : ℚ) / (w * t)) cs ws,
        0 ≤ x := by
  intro cs
  induction cs with
  | nil => intro ws _ x hx; simp at hx
  | cons c cs ih =>
    intro ws hw x hx
    cases ws with
    | nil => simp at hx
    | cons w ws =>
      simp only [List.zipWith_cons_cons, List.mem_cons] at hx
      rcases hx with h | h
      · subst h
        exact div_nonneg (Nat.cast_nonneg c)
          (mul_nonneg (hw w (by simp)).le ht)
      · exact ih ws (fun u hu => hw u (by simp [hu])) x h

theorem zipWith_density_sum_pos (t : ℚ) (ht : 0 < t) :
    ∀ (cs : List Nat) (ws : List ℚ), (∀ w ∈ ws, 0 < w) →
      ws.length = cs.length → 1 ≤ cs.sum →
      0 < (List.zipWith
        (fun (c : Nat) (w : ℚ) => (c : ℚ) / (w * t)) cs ws).sum := by
  intro cs
  induction cs with
  | nil => intro ws _ _ hsum; simp at hsum
  | cons c cs ih =>
    intro ws hw hlen hsum
    cases ws with
    | nil => simp at hlen
    | cons w ws =>
      simp only [List.zipWith_cons_cons, List.sum_cons]
      have hrest : 0 ≤ (List.zipWith
          (fun (c : Nat) (w : ℚ) => (c : ℚ) / (w * t)) cs ws).sum :=
        List.sum_nonneg (zipWith_density_nonneg t ht.le cs ws
          (fun u hu => hw u (by simp [hu])))
      by_cases hc : c = 0
      · subst hc
        have h1 : 1 ≤ cs.sum := by simpa using hsum
        have hind := ih ws (fun u hu => hw u (by simp [hu]))
          (by simpa using hlen) h1
        simpa using hind
      · have hcpos : (0:ℚ) < c := by
          exact_mod_cast Nat.pos_of_ne_zero hc
        have hterm : 0 < (c:ℚ) / (w * t) :=
          div_pos hcpos (mul_pos (hw w (by simp)) ht)
        linarith

theorem getLast?_cons_of_ne_nil {α : Type} (a : α) {l : List α}
    (h : l ≠ []) : (a :: l).getLast? = l.getLast? := by
  cases l with
  | nil => exact absurd rfl h
  | cons b m => simp [List.getLast?_cons_cons]

theorem cumsumFrom_ne_nil (acc : ℚ) (l : List ℚ) (h : l ≠ []) :
    cumsumFrom acc l ≠ [] := by
  cases l with
  | nil => exact absurd rfl h
  | cons x xs => simp [cumsumFrom]

theorem cumsumFrom_getLast? :
    ∀ (l : List ℚ) (acc : ℚ), l ≠ [] →
      (cumsumFrom acc l).getLast? = some (acc + l.sum) := by
  intro l
  induction l with
  | nil => intro acc h; exact absurd rfl h
  | cons x xs ih =>
    intro acc _
    cases xs with
    | nil => simp [cumsumFrom]
    | cons y ys =>
      have hne : cumsumFrom (acc + x) (y :: ys) ≠ [] :=
        cumsumFrom_ne_nil _ _ (by simp)
      rw [show cumsumFrom acc (x :: y :: ys) =
            (acc + x) :: cumsumFrom (acc + x) (y :: ys) from rfl,
        getLast?_cons_of_ne_nil _ hne, ih (acc + x) (by simp)]
      congr 1
      simp [List.sum_cons]
      ring

theorem cumsumFrom_chain :
    ∀ (l : List ℚ) (acc : ℚ), (∀ x ∈ l, 0 ≤ x) →
      (cumsumFrom acc l).Chain' (· ≤ ·) := by
  intro l
  induction l with
  | nil => intro acc _; simp [cumsumFrom]
  | cons x xs ih =>
    intro acc hnn
    cases xs with
    | nil => simp [cumsumFrom]
    | cons y ys =>
      rw [show cumsumFrom acc (x :: y :: ys) =
            (acc + x) :: (acc + x + y) :: cumsumFrom (acc + x + y) ys
          from rfl]
      refine List.chain'_cons.mpr ⟨?_, ?_⟩
      · have := hnn y (by simp)
        linarith
      · have hch := ih (acc + x) (fun u hu => hnn u (by simp [hu]))
        exact hch

/-- C5: for a non-empty sample whose values are covered by a strictly
increasing list of at least two bin edges (as the default `get_bins` edges
are), the cumulative histogram rendered by `_histplot_bokeh_op` is
non-decreasing and its last bar equals exactly 1 after normalization. -/
theorem cumulative_hist_monotone_last_one (values edges : List ℚ)
    (hv : values ≠ []) (hlen : 2 ≤ edges.length)
    (hsort : edges.Chain' (· < ·))
    (hcover : ∀ v ∈ values, edges.head?.getD 0 ≤ v ∧
      v ≤ edges.getLast?.getD 0) :
    (histplot_bokeh_op values edges true).Chain' (· ≤ ·) ∧
    (histplot_bokeh_op values edges true).getLast? = some 1 := by
  obtain ⟨v, hvmem⟩ := List.exists_mem_of_ne_nil values hv
  have hcsum : 1 ≤ (histCounts values edges).sum :=
    histCounts_sum_pos values v hvmem edges hlen (hcover v hvmem).1
      (hcover v hvmem).2
  have htot : (0:ℚ) < ((histCounts values edges).sum : ℚ) := by
    exact_mod_cast Nat.lt_of_lt_of_le Nat.zero_lt_one hcsum
  have hDne : histDensity values edges ≠ [] := by
    cases edges with
    | nil => simp at hlen
    | cons lo tail =>
      cases tail with
      | nil => simp at hlen
      | cons hi rest => exact histDensity_ne_nil values lo hi rest
  have hDnn : ∀ x ∈ histDensity values edges, 0 ≤ x := by
    unfold histDensity
    exact zipWith_density_nonneg _ htot.le _ _ (binWidths_pos edges hsort)
  have hsumpos : 0 < (histDensity values edges).sum := by
    unfold histDensity
    exact zipWith_density_sum_pos _ htot _ _ (binWidths_pos edges hsort)
      (histCounts_length_eq_binWidths values edges).symm hcsum
  have hmono : (cumsum (histDensity values edges)).Chain' (· ≤ ·) :=
    cumsumFrom_chain _ 0 hDnn
  have hlast : (cumsum (histDensity values edges)).getLast? =
      some (histDensity values edges).sum := by
    have h := cumsumFrom_getLast? (histDensity values edges) 0 hDne
    simpa [cumsum] using h
  have hS : (cumsum (histDensity values edges)).getLast?.getD 0 =
      (histDensity values edges).sum := by
    rw [hlast]; rfl
  have hop : histplot_bokeh_op values edges true =
      (cumsum (histDensity values edges)).map
        (fun x => x / (histDensity values edges).sum) := by
    simp [histplot_bokeh_op, hS]
  constructor
  · rw [hop, List.chain'_map]
    exact hmono.imp
      (fun a b hab => (div_le_div_iff_of_pos_right hsumpos).mpr hab)
  · rw [hop, List.getLast?_map, hlast]
    simp [div_self (ne_of_gt hsumpos)]

/-- Witness for C5 at a concrete sample and concrete covering edges. -/
theorem cumulative_hist_monotone_last_one_witness :
    (histplot_bokeh_op [0, 1] [0, 1/2, 1] true).Chain' (· ≤ ·) ∧
    (histplot_bokeh_op [0, 1] [0, 1/2, 1] true).getLast? = some 1 :=
  cumulative_hist_monotone_last_one [0, 1] [0, 1/2, 1] (by decide)
    (by decide)
    (by norm_num [List.chain'_cons, List.chain'_singleton])
    (by decide)

/-- C1: a `plot_joint` request that does not resolve to exactly two plot
units fails with the cardinality error reporting the actual count, both in
the error's count field and in its message; in particular, on a dataset of
scalar variables one requested name fails reporting count 1 and three
requested names fail reporting count 3. -/
theorem joint_cardinality_reports_count :
    (∀ (Raw : Type) (convert : Raw → Dataset) (data : Raw)
        (varNames : Option (List String)),
      let ds := convert data
      let n := (xarray_var_iter ds (var_names_resolve varNames ds)).length
      n ≠ 2 →
      plot_joint convert "scatter" data varNames =
        .error (.cardinalityError n (joint_cardinality_msg n))) ∧
    plot_joint (fun _ : Unit => scalarDS) "scatter" () (some ["a"]) =
      .error (.cardinalityError 1 (joint_cardinality_msg 1)) ∧
    plot_joint (fun _ : Unit => scalarDS) "scatter" () (some ["a", "b", "c"]) =
      .error (.cardinalityError 3 (joint_cardinality_msg 3)) := by
  refine ⟨fun Raw convert data varNames => ?_, by rfl, by rfl⟩
  intro ds n hn
  simp only [plot_joint, joint_valid_kinds]
  norm_num
  intro h
  exact absurd h hn

/-- Witness for C1 at a concrete input: the three-name request resolves to
three units and fails reporting count 3. -/
theorem joint_cardinality_reports_count_witness :
    plot_joint (fun _ : Unit => scalarDS) "scatter" () (some ["b"]) =
      .error (.cardinalityError 1 (joint_cardinality_msg 1)) :=
  joint_cardinality_reports_count.1 Unit (fun _ => scalarDS) () (some ["b"])
    (by decide)

/-- C3: with `max_lag` unset the effective maximum lag is
`min(100, draw_count)` — 50 for a 50-draw array, 100 for a 500-draw array —
and an explicitly supplied `max_lag` is used unchanged. -/
theorem autocorr_max_lag_default :
    plot_autocorr_max_lag none 50 = 50 ∧
    plot_autocorr_max_lag none 500 = 100 ∧
    (∀ d : Nat, plot_autocorr_max_lag none d = min 100 d) ∧
    (∀ (m d : Nat), plot_autocorr_max_lag (some m) d = m) := by
  refine ⟨rfl, rfl, fun d => rfl, fun m d => rfl⟩

end Arviz
